import Mathlib

/-!
Verification development for a two-workflow chat orchestration repository:
a customer-support supervisor router (`agents.py`) and a chain-of-thought
reasoning agent (`chain_of_thought_agent.py`).

The Python node functions are shallowly embedded as pure Lean functions.
Each LangGraph node takes the state and, where the node may call the LLM,
an extra `resp : String` oracle standing for the text of the LLM response;
the `llmCalled` / `classifyCalled` flag in the result records whether the
node actually invoked the LLM on that path.  A node's return value in
Python is a partial state-update dict; we model it as a result structure
whose `Option` fields are `none` exactly when the corresponding key is
absent from the returned dict.

String operations used by the code (`in`, `.lower()`, `.split`, `.strip()`,
`.replace`, `.title()`) are embedded as structurally recursive functions on
`List Char` so that all definitions reduce in the kernel.
-/

/-- Message records: `HumanMessage`, `AIMessage`, `SystemMessage`,
`ToolMessage` from the host framework, carrying their text content. -/
inductive Message where
  | human (content : String)
  | ai (content : String)
  | system (content : String)
  | tool (content : String)
deriving DecidableEq, Repr

/-- Python `pat in s` prefix test on char lists: does the first list occur
at the head of the second? -/
def charsPrefixMatch : List Char → List Char → Bool
  | [], _ => true
  | _ :: _, [] => false
  | a :: as, b :: bs => a == b && charsPrefixMatch as bs

/-- Python `pat in s` substring test on char lists. -/
def charsFindSub (pat : List Char) : List Char → Bool
  | [] => charsPrefixMatch pat []
  | c :: rest => charsPrefixMatch pat (c :: rest) || charsFindSub pat rest

/-- Python `pat in s` on strings. -/
def containsSub (s pat : String) : Bool := charsFindSub pat.data s.data

/-- Python `str.lower()` (ASCII, which covers every pattern the code tests). -/
def strLower (s : String) : String := ⟨s.data.map Char.toLower⟩

/-- Python `str.strip()`. -/
def strTrim (s : String) : String :=
  ⟨((s.data.dropWhile Char.isWhitespace).reverse.dropWhile Char.isWhitespace).reverse⟩

/-- Split a char list at the first occurrence of a (non-empty) separator,
returning the part before and the part after; `none` when the separator
does not occur.  Mirrors one step of Python `str.split(sep, maxsplit)`. -/
def splitAtSub (sep : List Char) : List Char → Option (List Char × List Char)
  | [] => none
  | c :: rest =>
    if charsPrefixMatch sep (c :: rest) then some ([], (c :: rest).drop sep.length)
    else
      match splitAtSub sep rest with
      | some (pre, post) => some (c :: pre, post)
      | none => none

/-- Split at the first `|`, as in `response.content.split("|", 1)`:
`none` models the `ValueError` raised by unpacking a 1-element split. -/
def splitOnPipe : List Char → Option (List Char × List Char)
  | [] => none
  | c :: rest =>
    if c = '|' then some ([], rest)
    else
      match splitOnPipe rest with
      | some (pre, post) => some (c :: pre, post)
      | none => none

/-- Python `str.replace("_", " ")`. -/
def underscoreToSpace (s : String) : String :=
  ⟨s.data.map (fun c => if c = '_' then ' ' else c)⟩

/-- Helper for `str.title()`: the Boolean records whether the previous
character was alphabetic. -/
def titleAux : Bool → List Char → List Char
  | _, [] => []
  | prevAlpha, c :: rest =>
    (if c.isAlpha then (if prevAlpha then c.toLower else c.toUpper) else c)
      :: titleAux c.isAlpha rest

/-- Python `str.title()` (ASCII). -/
def pyTitle (s : String) : String := ⟨titleAux false s.data⟩

/-! ## Chain-of-thought reasoning workflow (`chain_of_thought_agent.py`) -/

/-- `ReasoningState(MessagesState)`: message history plus
`current_problem: str = ""` and `step_count: int = 0`.  The counter is only
ever assigned `0` or incremented by one, so it is modelled as `Nat`. -/
structure ReasoningState where
  messages : List Message
  current_problem : String
  step_count : Nat
deriving DecidableEq, Repr

/-- A reasoning node's return value: the `messages` entry of the returned
dict, the optional `current_problem` and `step_count` entries (`none` when
the key is absent), and whether the node invoked the LLM. -/
structure NodeResult where
  messages : List Message
  current_problem : Option String
  step_count : Option Nat
  llmCalled : Bool
deriving DecidableEq, Repr

/-- The coordinator's static greeting message text. -/
def coordinatorGreeting : String :=
  "Hello! I\x27m your Chain of Thought Reasoning Agent. I\x27ll help you think through problems step by step. What would you like me to analyze?"

/-- The "starting analysis" announcement emitted for problem `p`. -/
def startAnalysisText (p : String) : String :=
  "🧠 **Starting Chain of Thought Analysis**\n\nI need to think through this problem step by step: \"" ++ p ++ "\"\n\nLet me break this down systematically using a structured reasoning approach."

/-- Help-request text of `step_by_step_reasoner` when no problem is set. -/
def needProblemText : String :=
  "I need a problem to analyze. Please provide a question or issue you\x27d like me to think through."

/-- Blocking text of `conclusion_synthesizer` when too few steps parse. -/
def needMoreStepsText : String :=
  "I need more reasoning steps before I can provide a conclusion."

/-- The titles of the four entries of `step_prompts` (the prompt bodies are
LLM inputs, abstracted into the response oracle). -/
def stepTitles : List String :=
  ["Problem Analysis", "Information Gathering", "Option Generation",
   "Evaluation & Decision"]

/-- The step message appended for step index `n` with title `title` and LLM
response text `resp`. -/
def stepMessageText (n : Nat) (title resp : String) : String :=
  "🔍 **Step " ++ toString (n + 1) ++ ": " ++ title ++ "**\n\n" ++ resp

/-- `reasoning_coordinator`: greeting on empty history; on a trailing
user message, capture the problem, reset the counter, and announce the
analysis; otherwise `return state` (modelled as a full-state result). -/
def reasoning_coordinator (s : ReasoningState) : NodeResult :=
  match s.messages.getLast? with
  | none =>
    { messages := [Message.ai coordinatorGreeting]
      current_problem := none, step_count := none, llmCalled := false }
  | some (Message.human c) =>
    { messages := s.messages ++ [Message.ai (startAnalysisText c)]
      current_problem := some c, step_count := some 0, llmCalled := false }
  | some _ =>
    { messages := s.messages
      current_problem := some s.current_problem
      step_count := some s.step_count, llmCalled := false }

/-- `step_by_step_reasoner`: help message when `current_problem` is empty;
for `step_count < len(step_prompts)` issue one LLM call, append the
formatted step message and increment the counter; otherwise
`return state`. -/
def step_by_step_reasoner (s : ReasoningState) (resp : String) : NodeResult :=
  if s.current_problem = "" then
    { messages := s.messages ++ [Message.ai needProblemText]
      current_problem := none, step_count := some s.step_count
      llmCalled := false }
  else if s.step_count < stepTitles.length then
    { messages :=
        s.messages ++
          [Message.ai (stepMessageText s.step_count
            (stepTitles.getD s.step_count "") resp)]
      current_problem := some s.current_problem
      step_count := some (s.step_count + 1), llmCalled := true }
  else
    { messages := s.messages
      current_problem := some s.current_problem
      step_count := some s.step_count, llmCalled := false }

/-- The step-shaped parse of one assistant message in
`conclusion_synthesizer`: the message must contain `"Step"` and `":"`;
then `content.split("**", 2)` must yield more than two parts, and the
third part, stripped, is the recovered step text. -/
def stepShapedPart (content : String) : Option String :=
  if containsSub content "Step" && containsSub content ":" then
    if containsSub content "**" then
      match splitAtSub ['*', '*'] content.data with
      | some (_, rest1) =>
        match splitAtSub ['*', '*'] rest1 with
        | some (_, rest2) => some (strTrim ⟨rest2⟩)
        | none => none
      | none => none
    else none
  else none

/-- The `reasoning_steps` list recovered from the message history. -/
def extractSteps (msgs : List Message) : List String :=
  msgs.filterMap fun m =>
    match m with
    | Message.ai c => stepShapedPart c
    | _ => none

/-- The final conclusion message built from LLM response text `resp`. -/
def conclusionText (resp : String) : String :=
  "🎯 **Final Conclusion & Recommendation**\n\n" ++ resp ++
  "\n\n---\n\n**Reasoning Process Summary:**\n✅ **Step 1: Problem Analysis** - Identified core issues and key factors\n✅ **Step 2: Information Gathering** - Determined what information is needed\n✅ **Step 3: Option Generation** - Explored different approaches and solutions\n✅ **Step 4: Evaluation & Decision** - Analyzed pros/cons and made recommendations\n\nThis systematic approach ensures thorough consideration of all aspects of your question."

/-- `conclusion_synthesizer`: re-parse step-shaped assistant messages;
with fewer than 3 recovered steps, append the blocking message without an
LLM call; otherwise issue one LLM call and append the conclusion block. -/
def conclusion_synthesizer (s : ReasoningState) (resp : String) : NodeResult :=
  if (extractSteps s.messages).length < 3 then
    { messages := s.messages ++ [Message.ai needMoreStepsText]
      current_problem := none, step_count := some s.step_count
      llmCalled := false }
  else
    { messages := s.messages ++ [Message.ai (conclusionText resp)]
      current_problem := some s.current_problem
      step_count := some s.step_count, llmCalled := true }

/-- `route_reasoning_flow`: a pure function of the step counter (a Python
`int`, hence modelled on all of `Int`), returning one of the literals
`"step_reasoner"`, `"conclusion"`, `"end"`. -/
def route_reasoning_flow (step_count : Int) : String :=
  if step_count < 4 then "step_reasoner"
  else if step_count ≥ 4 then "conclusion"
  else "end"

/-! ## Customer-support workflow (`agents.py`) -/

/-- `SupportState(MessagesState)`.  `next_agent` is `none` when the key was
never set on the state, so that `route_to_agent`'s
`state.get("next_agent", "general_agent")` default is observable. -/
structure SupportState where
  messages : List Message
  active_agent : String
  ticket_category : String
  customer_id : String
  next_agent : Option String
deriving DecidableEq, Repr

/-- The supervisor's return value: the `messages` entry of the returned
dict, the optional `active_agent` / `next_agent` entries, and whether a
classification LLM call was issued. -/
structure SupervisorResult where
  messages : List Message
  active_agent : Option String
  next_agent : Option String
  classifyCalled : Bool
deriving DecidableEq, Repr

/-- The supervisor's static greeting message. -/
def supervisorGreeting : Message := Message.ai "Hello! How can I help you today?"

/-- `billing_keywords` from `supervisor_node`. -/
def billing_keywords : List String :=
  ["billing", "payment", "refund", "charge", "invoice", "account balance"]

/-- `technical_keywords` from `supervisor_node`. -/
def technical_keywords : List String :=
  ["password", "login", "technical", "api", "connection", "error", "bug",
   "down", "not working"]

/-- `general_keywords` from `supervisor_node`. -/
def general_keywords : List String :=
  ["plan", "upgrade", "downgrade", "account settings", "general"]

/-- `any(keyword in content for keyword in kws)`; `content` is the already
lowercased user text. -/
def anyKeyword (content : String) (kws : List String) : Bool :=
  kws.any fun k => containsSub content k

/-- The reverse scan of `supervisor_node` over the history (here already
reversed and with the trailing user message dropped): the first AI message
whose lowercased content contains `"routing your request to our"` ends the
scan, yielding the specialist whose marker it contains, or `none` when no
marker matches (the Python loop `break`s with `current_active_agent`
still `None`). -/
def scanForHandoff : List Message → Option String
  | [] => none
  | Message.ai content :: rest =>
    if containsSub (strLower content) "routing your request to our" then
      if containsSub (strLower content) "technical agent" then some "technical_agent"
      else if containsSub (strLower content) "billing agent" then some "billing_agent"
      else if containsSub (strLower content) "general agent" then some "general_agent"
      else none
    else scanForHandoff rest
  | _ :: rest => scanForHandoff rest

/-- The handoff announcement text for agent label `choice` and reason
`reason`: `f"I'm routing your request to our {choice.replace('_', ' ').title()} team. {reason}"`. -/
def handoffText (choice reason : String) : String :=
  "I\x27m routing your request to our " ++ pyTitle (underscoreToSpace choice) ++
    " team. " ++ reason

/-- The classification branch of `supervisor_node`: parse the LLM response
as `label|reason` (stripping both), defaulting to the general specialist on
parse failure, then append the handoff announcement. -/
def classifyOutcome (state : SupportState) (resp : String) : SupervisorResult :=
  match splitOnPipe resp.data with
  | some (a, r) =>
    { messages :=
        state.messages ++ [Message.ai (handoffText (strTrim ⟨a⟩) (strTrim ⟨r⟩))]
      active_agent := some (strTrim ⟨a⟩)
      next_agent := some (strTrim ⟨a⟩)
      classifyCalled := true }
  | none =>
    { messages :=
        state.messages ++
          [Message.ai (handoffText "general_agent"
            "Unable to categorize, routing to general support")]
      active_agent := some "general_agent"
      next_agent := some "general_agent"
      classifyCalled := true }

/-- `supervisor_node`: greeting when the history is empty or does not end
in a user message; sticky continuation when a previously active specialist
is recovered and no keyword set matches the lowercased user text; otherwise
one classification call. -/
def supervisor_node (state : SupportState) (resp : String) : SupervisorResult :=
  match state.messages.getLast? with
  | some (Message.human content) =>
    if (scanForHandoff state.messages.dropLast.reverse).isSome &&
        !(anyKeyword (strLower content) billing_keywords ||
          anyKeyword (strLower content) technical_keywords ||
          anyKeyword (strLower content) general_keywords) then
      { messages := state.messages
        active_agent := scanForHandoff state.messages.dropLast.reverse
        next_agent := scanForHandoff state.messages.dropLast.reverse
        classifyCalled := false }
    else
      classifyOutcome state resp
  | _ =>
    { messages := [supervisorGreeting]
      active_agent := none, next_agent := none, classifyCalled := false }

/-- `route_to_agent`: `state.get("next_agent", "general_agent")`. -/
def route_to_agent (state : SupportState) : String :=
  state.next_agent.getD "general_agent"

/-! ## Helper lemmas -/

/-- When the delimiter does not occur, the `label|reason` split fails. -/
theorem splitOnPipe_eq_none {cs : List Char} (h : '|' ∉ cs) :
    splitOnPipe cs = none := by
  induction cs with
  | nil => rfl
  | cons c rest ih =>
    have hc : ¬ c = '|' := fun hc => h (by rw [hc]; exact List.mem_cons_self _ _)
    have hrest : '|' ∉ rest := fun hm => h (List.mem_cons_of_mem _ hm)
    unfold splitOnPipe
    rw [if_neg hc, ih hrest]

/-- Both branches of the classification outcome record that the LLM
classification call was issued. -/
theorem classifyOutcome_called (s : SupportState) (resp : String) :
    (classifyOutcome s resp).classifyCalled = true := by
  unfold classifyOutcome
  rcases splitOnPipe resp.data with _ | ⟨a, r⟩ <;> rfl

/-! ## Claim theorems -/

/-- C7: `route_reasoning_flow` is a pure function of the step counter:
for every integer counter it returns `"step_reasoner"` iff the counter is
strictly below 4 and `"conclusion"` iff the counter is at least 4, and it
never returns `"end"`. -/
theorem route_reasoning_flow_pure (n : Int) :
    (route_reasoning_flow n = "step_reasoner" ↔ n < 4) ∧
    (route_reasoning_flow n = "conclusion" ↔ 4 ≤ n) ∧
    route_reasoning_flow n ≠ "end" := by
  have hsc : ("step_reasoner" : String) ≠ "conclusion" := by decide
  have hse : ("step_reasoner" : String) ≠ "end" := by decide
  have hce : ("conclusion" : String) ≠ "end" := by decide
  unfold route_reasoning_flow
  rcases lt_or_le n 4 with h | h
  · have h' : ¬ (4 : Int) ≤ n := by omega
    simp [h, h', hsc, hse]
  · have h' : ¬ n < (4 : Int) := by omega
    simp [h, h', hsc.symm, hce, Ne.symm hsc]

/-- C8: `reasoning_coordinator` emits exactly the static greeting on an
empty history; when the latest message is a user message it sets the
problem statement to that message's text, resets the step counter to 0,
and appends the "starting analysis" announcement. -/
theorem reasoning_coordinator_contract (s : ReasoningState) :
    (s.messages = [] →
      reasoning_coordinator s =
        ⟨[Message.ai coordinatorGreeting], none, none, false⟩) ∧
    (∀ pre c, s.messages = pre ++ [Message.human c] →
      reasoning_coordinator s =
        ⟨(pre ++ [Message.human c]) ++ [Message.ai (startAnalysisText c)],
         some c, some 0, false⟩) := by
  constructor
  · intro h
    unfold reasoning_coordinator
    rw [h]
    rfl
  · intro pre c h
    unfold reasoning_coordinator
    rw [h, List.getLast?_concat]

/-- C8 witness: the contract evaluated on the empty history and on a
single-user-message history. -/
theorem reasoning_coordinator_contract_witness :
    reasoning_coordinator ⟨[], "", 0⟩ =
      ⟨[Message.ai coordinatorGreeting], none, none, false⟩ ∧
    reasoning_coordinator ⟨[Message.human "q"], "", 0⟩ =
      ⟨[Message.human "q", Message.ai (startAnalysisText "q")],
       some "q", some 0, false⟩ :=
  ⟨(reasoning_coordinator_contract ⟨[], "", 0⟩).1 rfl,
   (reasoning_coordinator_contract ⟨[Message.human "q"], "", 0⟩).2 [] "q" rfl⟩

/-- C1 (amended): with a non-empty problem statement, a counter below 4
means one step message is appended and the counter is incremented by
exactly one; a counter at 4 or above is a no-op returning the state
unchanged; the returned counter never exceeds `max step_count 4`. -/
theorem step_by_step_reasoner_counter (s : ReasoningState) (resp : String)
    (hp : s.current_problem ≠ "") :
    (s.step_count < 4 →
      step_by_step_reasoner s resp =
        ⟨s.messages ++
          [Message.ai (stepMessageText s.step_count
            (stepTitles.getD s.step_count "") resp)],
         some s.current_problem, some (s.step_count + 1), true⟩) ∧
    (4 ≤ s.step_count →
      step_by_step_reasoner s resp =
        ⟨s.messages, some s.current_problem, some s.step_count, false⟩) ∧
    (∀ n, (step_by_step_reasoner s resp).step_count = some n →
      n ≤ max s.step_count 4) := by
  have hlen : stepTitles.length = 4 := rfl
  unfold step_by_step_reasoner
  rw [if_neg hp, hlen]
  refine ⟨fun h => ?_, fun h => ?_, fun n hn => ?_⟩
  · rw [if_pos h]
  · rw [if_neg (by omega)]
  · by_cases h : s.step_count < 4
    · rw [if_pos h] at hn
      simp only [Option.some.injEq] at hn
      omega
    · rw [if_neg h] at hn
      simp only [Option.some.injEq] at hn
      omega

/-- C1 witness: one stepping invocation at counter 2 with problem "p". -/
theorem step_by_step_reasoner_counter_witness :
    step_by_step_reasoner ⟨[], "p", 2⟩ "r" =
      ⟨[Message.ai (stepMessageText 2 "Option Generation" "r")],
       some "p", some 3, true⟩ :=
  (step_by_step_reasoner_counter ⟨[], "p", 2⟩ "r" (by decide)).1 (by decide)

/-- C1 counterexample: at counter 4 with an empty problem statement the
reasoner does not return the state unchanged — it appends the
help-request message (the empty-problem branch runs first), so the claim's
unconditional "counter at 4 implies no-op" clause is false. -/
theorem step_by_step_reasoner_at_four_not_noop :
    step_by_step_reasoner ⟨[], "", 4⟩ "x" ≠
      ⟨([] : List Message), some "", some 4, false⟩ := by decide

/-- C9: with an empty problem statement the reasoner appends exactly the
help-request message, issues no LLM call, and does not touch the step
counter. -/
theorem step_by_step_reasoner_no_problem (s : ReasoningState) (resp : String)
    (hp : s.current_problem = "") :
    step_by_step_reasoner s resp =
      ⟨s.messages ++ [Message.ai needProblemText], none, some s.step_count,
       false⟩ := by
  unfold step_by_step_reasoner
  rw [if_pos hp]

/-- C9 witness: the empty-problem branch on a concrete state. -/
theorem step_by_step_reasoner_no_problem_witness :
    step_by_step_reasoner ⟨[], "", 0⟩ "x" =
      ⟨[Message.ai needProblemText], none, some 0, false⟩ :=
  step_by_step_reasoner_no_problem ⟨[], "", 0⟩ "x" rfl

/-- C6: when fewer than 3 step-shaped assistant messages parse from the
history, the synthesizer appends exactly the blocking message, issues no
LLM call, and leaves the step counter unchanged. -/
theorem conclusion_synthesizer_blocks (s : ReasoningState) (resp : String)
    (h : (extractSteps s.messages).length < 3) :
    conclusion_synthesizer s resp =
      ⟨s.messages ++ [Message.ai needMoreStepsText], none, some s.step_count,
       false⟩ := by
  unfold conclusion_synthesizer
  rw [if_pos h]

/-- C6 witness: a history with no step-shaped message blocks synthesis. -/
theorem conclusion_synthesizer_blocks_witness :
    conclusion_synthesizer ⟨[Message.human "q"], "q", 1⟩ "r" =
      ⟨[Message.human "q", Message.ai needMoreStepsText], none, some 1,
       false⟩ :=
  conclusion_synthesizer_blocks ⟨[Message.human "q"], "q", 1⟩ "r" (by decide)

/-- C2: with a previously active specialist recovered from a prior handoff
announcement and a latest user message matching none of the three keyword
sets, the supervisor reuses that specialist without a classification call
and without appending any message. -/
theorem supervisor_node_sticky (s : SupportState) (resp c agent : String)
    (hl : s.messages.getLast? = some (Message.human c))
    (hscan : scanForHandoff s.messages.dropLast.reverse = some agent)
    (hb : anyKeyword (strLower c) billing_keywords = false)
    (ht : anyKeyword (strLower c) technical_keywords = false)
    (hg : anyKeyword (strLower c) general_keywords = false) :
    supervisor_node s resp = ⟨s.messages, some agent, some agent, false⟩ := by
  unfold supervisor_node
  rw [hl]
  simp [hscan, hb, ht, hg]

/-- C2 witness: a technical handoff followed by a keyword-free user
message sticks to the technical specialist. -/
theorem supervisor_node_sticky_witness :
    supervisor_node
      ⟨[Message.ai "I\x27m routing your request to our Technical Agent team. r",
        Message.human "thanks"], "supervisor", "", "", none⟩ "x" =
      ⟨[Message.ai "I\x27m routing your request to our Technical Agent team. r",
        Message.human "thanks"],
       some "technical_agent", some "technical_agent", false⟩ :=
  supervisor_node_sticky
    ⟨[Message.ai "I\x27m routing your request to our Technical Agent team. r",
      Message.human "thanks"], "supervisor", "", "", none⟩
    "x" "thanks" "technical_agent"
    (by decide) (by decide) (by decide) (by decide) (by decide)

/-- C3: with no prior handoff announcement in the history, a latest user
message containing a billing keyword does not take the sticky path: the
supervisor issues a fresh classification call. -/
theorem supervisor_node_no_handoff_classifies (s : SupportState)
    (resp c : String)
    (hl : s.messages.getLast? = some (Message.human c))
    (hscan : scanForHandoff s.messages.dropLast.reverse = none)
    (hb : anyKeyword (strLower c) billing_keywords = true) :
    supervisor_node s resp = classifyOutcome s resp ∧
      (supervisor_node s resp).classifyCalled = true := by
  have h1 : supervisor_node s resp = classifyOutcome s resp := by
    unfold supervisor_node
    rw [hl]
    simp [hscan]
  exact ⟨h1, by rw [h1]; exact classifyOutcome_called s resp⟩

/-- C3 witness: first-turn billing request with no prior handoff. -/
theorem supervisor_node_no_handoff_classifies_witness :
    supervisor_node ⟨[Message.human "refund please"], "supervisor", "", "",
        none⟩ "billing_agent|refund request" =
      classifyOutcome ⟨[Message.human "refund please"], "supervisor", "", "",
        none⟩ "billing_agent|refund request" ∧
    (supervisor_node ⟨[Message.human "refund please"], "supervisor", "", "",
        none⟩ "billing_agent|refund request").classifyCalled = true :=
  supervisor_node_no_handoff_classifies
    ⟨[Message.human "refund please"], "supervisor", "", "", none⟩
    "billing_agent|refund request" "refund please"
    (by decide) (by decide) (by decide)

/-- C4: even with an active specialist, a latest user message containing a
keyword from any of the three sets forces re-classification instead of the
sticky path. -/
theorem supervisor_node_keyword_reclassifies (s : SupportState)
    (resp c agent : String)
    (hl : s.messages.getLast? = some (Message.human c))
    (hscan : scanForHandoff s.messages.dropLast.reverse = some agent)
    (hk : (anyKeyword (strLower c) billing_keywords ||
           anyKeyword (strLower c) technical_keywords ||
           anyKeyword (strLower c) general_keywords) = true) :
    supervisor_node s resp = classifyOutcome s resp ∧
      (supervisor_node s resp).classifyCalled = true := by
  have h1 : supervisor_node s resp = classifyOutcome s resp := by
    unfold supervisor_node
    rw [hl]
    simp [hk]
  exact ⟨h1, by rw [h1]; exact classifyOutcome_called s resp⟩

/-- C4 witness: "refund please" (billing keyword) after a prior technical
handoff re-classifies. -/
theorem supervisor_node_keyword_reclassifies_witness :
    supervisor_node
      ⟨[Message.ai "I\x27m routing your request to our Technical Agent team. r",
        Message.human "refund please"], "supervisor", "", "", none⟩
      "billing_agent|refund request" =
      classifyOutcome
        ⟨[Message.ai "I\x27m routing your request to our Technical Agent team. r",
          Message.human "refund please"], "supervisor", "", "", none⟩
        "billing_agent|refund request" ∧
    (supervisor_node
      ⟨[Message.ai "I\x27m routing your request to our Technical Agent team. r",
        Message.human "refund please"], "supervisor", "", "", none⟩
      "billing_agent|refund request").classifyCalled = true :=
  supervisor_node_keyword_reclassifies
    ⟨[Message.ai "I\x27m routing your request to our Technical Agent team. r",
      Message.human "refund please"], "supervisor", "", "", none⟩
    "billing_agent|refund request" "refund please" "technical_agent"
    (by decide) (by decide) (by decide)

/-- C5: on the classification path, a response without the `|` delimiter
defaults the decision to the general specialist with the generic reason,
and a handoff announcement is still appended; the announcement text is
the literal general-support fallback message. -/
theorem supervisor_node_malformed_defaults (s : SupportState)
    (resp c : String)
    (hl : s.messages.getLast? = some (Message.human c))
    (hcl : scanForHandoff s.messages.dropLast.reverse = none ∨
      (anyKeyword (strLower c) billing_keywords ||
       anyKeyword (strLower c) technical_keywords ||
       anyKeyword (strLower c) general_keywords) = true)
    (hp : '|' ∉ resp.data) :
    supervisor_node s resp =
      ⟨s.messages ++
        [Message.ai (handoffText "general_agent"
          "Unable to categorize, routing to general support")],
       some "general_agent", some "general_agent", true⟩ ∧
    handoffText "general_agent"
        "Unable to categorize, routing to general support" =
      "I\x27m routing your request to our General Agent team. Unable to categorize, routing to general support" := by
  have hsp : splitOnPipe resp.data = none := splitOnPipe_eq_none hp
  constructor
  · have h1 : supervisor_node s resp = classifyOutcome s resp := by
      unfold supervisor_node
      rw [hl]
      rcases hcl with h | h
      · simp [h]
      · simp [h]
    rw [h1]
    unfold classifyOutcome
    rw [hsp]
  · rfl

/-- C5 witness: a delimiter-free classification response on a first-turn
billing request falls back to the general specialist. -/
theorem supervisor_node_malformed_defaults_witness :
    supervisor_node ⟨[Message.human "refund please"], "supervisor", "", "",
        none⟩ "garbled" =
      ⟨[Message.human "refund please",
        Message.ai (handoffText "general_agent"
          "Unable to categorize, routing to general support")],
       some "general_agent", some "general_agent", true⟩ ∧
    handoffText "general_agent"
        "Unable to categorize, routing to general support" =
      "I\x27m routing your request to our General Agent team. Unable to categorize, routing to general support" :=
  supervisor_node_malformed_defaults
    ⟨[Message.human "refund please"], "supervisor", "", "", none⟩
    "garbled" "refund please"
    (by decide) (Or.inr (by decide)) (by decide)

/-- C10: when the history is empty or its latest message is not a user
message, the supervisor returns only the static greeting — no
classification call, no handoff, no `next_agent` entry — and a state
without a `next_agent` entry routes to the general-agent default. -/
theorem supervisor_node_greeting_default (s : SupportState) (resp : String)
    (h : ∀ c, s.messages.getLast? ≠ some (Message.human c)) :
    supervisor_node s resp = ⟨[supervisorGreeting], none, none, false⟩ ∧
    (∀ t : SupportState, t.next_agent = none →
      route_to_agent t = "general_agent") := by
  constructor
  · unfold supervisor_node
    rcases hm : s.messages.getLast? with _ | m
    · rfl
    · cases m with
      | human c => exact absurd hm (h c)
      | ai c => rfl
      | system c => rfl
      | tool c => rfl
  · intro t ht
    unfold route_to_agent
    rw [ht]
    rfl

/-- C10 witness: the empty history yields the greeting and the default
route. -/
theorem supervisor_node_greeting_default_witness :
    supervisor_node ⟨[], "supervisor", "", "", none⟩ "x" =
      ⟨[supervisorGreeting], none, none, false⟩ ∧
    route_to_agent ⟨[], "supervisor", "", "", none⟩ = "general_agent" :=
  have h := supervisor_node_greeting_default
    ⟨[], "supervisor", "", "", none⟩ "x" (fun _ hh => Option.noConfusion hh)
  ⟨h.1, h.2 ⟨[], "supervisor", "", "", none⟩ rfl⟩
